import Mathlib

/-!
Shallow embedding of `aiographql/client/subscription.py` (the GraphQL
subscriptions-over-websocket client) and proofs about its specification.

Modelling conventions:
* Decoded JSON frames are values of an inductive `JSON` type.  Python's
  `dict.get(key)` is modelled by `JSON.get`, which returns `none` both when
  the key is absent and when the stored value is JSON `null` (both decode to
  Python `None`).
* Asynchronous side effects (running a callback, sending a frame) are made
  explicit as `Effect` values returned by the modelled functions; a Python
  exception raised by a callback is an `Except.error` carried by the handler
  environment.
* `asyncio.Task` handles are modelled by `AsyncioTask`, carrying an identity
  and the `done`/`cancelled` flags the source queries.
-/

inductive JSON where
  | null
  | bool (b : Bool)
  | num (n : Int)
  | str (s : String)
  | arr (elems : List JSON)
  | obj (fields : List (String × JSON))

/-- Python `dict.get(key)` on a decoded JSON object: `none` when the key is
absent, when the receiver is not an object, or when the stored value is JSON
`null` (which decodes to Python `None`). -/
def JSON.get (j : JSON) (k : String) : Option JSON :=
  match j with
  | .obj fields =>
    match fields.lookup k with
    | some JSON.null => none
    | some v => some v
    | none => none
  | _ => none

/-- The ten wire frame types of `GraphQLSubscriptionEventType`
(subscription.py lines 21-31). -/
inductive GraphQLSubscriptionEventType where
  | CONNECTION_INIT
  | CONNECTION_ACK
  | CONNECTION_ERROR
  | CONNECTION_TERMINATE
  | START
  | DATA
  | ERROR
  | COMPLETE
  | STOP
  | KEEP_ALIVE
deriving DecidableEq, Repr

/-- The `.value` string of each enum member. -/
def GraphQLSubscriptionEventType.value : GraphQLSubscriptionEventType → String
  | .CONNECTION_INIT => "connection_init"
  | .CONNECTION_ACK => "connection_ack"
  | .CONNECTION_ERROR => "connection_error"
  | .CONNECTION_TERMINATE => "connection_terminate"
  | .START => "start"
  | .DATA => "data"
  | .ERROR => "error"
  | .COMPLETE => "complete"
  | .STOP => "stop"
  | .KEEP_ALIVE => "ka"

/-- All enum members, in declaration order. -/
def GraphQLSubscriptionEventType.all : List GraphQLSubscriptionEventType :=
  [.CONNECTION_INIT, .CONNECTION_ACK, .CONNECTION_ERROR, .CONNECTION_TERMINATE,
   .START, .DATA, .ERROR, .COMPLETE, .STOP, .KEEP_ALIVE]

/-- Python enum lookup by value, `GraphQLSubscriptionEventType(v)`: the member
whose `value` is `v`, or `none` where Python raises `ValueError` (the
`try/except ValueError` in the `type` property turns that into `None`). -/
def GraphQLSubscriptionEventType.ofValue (v : String) : Option GraphQLSubscriptionEventType :=
  GraphQLSubscriptionEventType.all.find? (fun t => t.value == v)

/-- Modelled from the spec: `GraphQLRequest` lives in `transaction.py`, which
is not part of the sources under study.  Per the spec data model, a Request is
query text, variable bindings and a header mapping, immutable once built. -/
structure GraphQLRequest where
  query : String
  variableValues : List (String × JSON)
  headers : List (String × String)

/-- Modelled from the spec: `GraphQLRequest.payload()` is defined in
`transaction.py`, not part of the sources under study.  Per the spec wire
table, the `start` frame payload carries the query and the variables. -/
def GraphQLRequest.payload (r : GraphQLRequest) : JSON :=
  JSON.obj [("query", JSON.str r.query), ("variables", JSON.obj r.variableValues)]

/-- Modelled from the spec: `GraphQLResponse` lives in `transaction.py`, not
part of the sources under study.  Per the spec, it associates a json body back
to the owning request. -/
structure GraphQLResponse where
  request : GraphQLRequest
  json : JSON

/-- `GraphQLSubscriptionEvent` (subscription.py lines 34-58).  The `request`
and `json` fields come from the `GraphQLBaseResponse` base class of
`transaction.py`; `subscription_id` is declared here. -/
structure GraphQLSubscriptionEvent where
  request : GraphQLRequest
  json : JSON
  subscription_id : Option String

/-- The `id` property: `self.json.get("id")` (line 39-40). -/
def GraphQLSubscriptionEvent.id (e : GraphQLSubscriptionEvent) : Option JSON :=
  JSON.get e.json "id"

/-- The `type` property (lines 42-47): enum lookup of the frame's `type`
field, with `ValueError` (unknown string, non-string value or absent field)
converted to `None` by the `try/except` block. -/
def GraphQLSubscriptionEvent.type (e : GraphQLSubscriptionEvent) :
    Option GraphQLSubscriptionEventType :=
  match JSON.get e.json "type" with
  | some (JSON.str v) => GraphQLSubscriptionEventType.ofValue v
  | _ => none

/-- Result of the `payload` property: either a `GraphQLResponse` or the raw
decoded payload value (the `Union[GraphQLResponse, str]` of the source). -/
inductive GraphQLSubscriptionPayload where
  | response (r : GraphQLResponse)
  | raw (j : JSON)

/-- The `payload` property (lines 49-58): the frame's `payload` field,
wrapped into a `GraphQLResponse` when the event type is `DATA` or `ERROR`,
returned raw otherwise, and `None` when absent. -/
def GraphQLSubscriptionEvent.payload (e : GraphQLSubscriptionEvent) :
    Option GraphQLSubscriptionPayload :=
  match JSON.get e.json "payload" with
  | none => none
  | some p =>
    if e.type = some GraphQLSubscriptionEventType.DATA ∨
        e.type = some GraphQLSubscriptionEventType.ERROR then
      some (GraphQLSubscriptionPayload.response ⟨e.request, p⟩)
    else
      some (GraphQLSubscriptionPayload.raw p)

/-- Behaviour of the registered handler closures, indexed by handler id: a
call either completes (`ok`) or raises a Python exception with a message
(`error`).  An `error` models any handler failure other than the act of
cancelling, which is a separate control signal handled by
`cancellation_handler`. -/
def HandlerEnv : Type := Nat → GraphQLSubscriptionEvent → Except String Unit

/-- Observable side effects of the modelled coroutines: a handler invocation
with its event, a handler failure being logged/reported by the dispatching
registry (spec section 7), or an outbound websocket frame. -/
inductive Effect where
  | run (handler : Nat) (e : GraphQLSubscriptionEvent)
  | report (handler : Nat) (msg : String)
  | send (frame : JSON)

/-- Modelled from the spec: `CallbackRegistry` comes from the external
`cafeteria.asyncio.callbacks` package, not part of the sources under study.
Per the spec, it is a mapping from event kind to an ordered collection of
handler closures, registration order being dispatch order; handlers are
identified here by a `Nat` id whose behaviour `HandlerEnv` supplies. -/
structure CallbackRegistry where
  callbacks : List (GraphQLSubscriptionEventType × Nat)

/-- Modelled from the spec: `CallbackRegistry.register` appends a handler for
an event kind (registration order is dispatch order). -/
def CallbackRegistry.register (r : CallbackRegistry)
    (t : GraphQLSubscriptionEventType) (h : Nat) : CallbackRegistry :=
  ⟨r.callbacks ++ [(t, h)]⟩

/-- Modelled from the spec: the handler-running core of the registry's
dispatch (`cafeteria` is not part of the sources under study).  All handlers
run in order; per spec section 7 a misbehaving handler's failure is isolated
— logged/reported (`Effect.report`) — and prevents neither the remaining
handlers nor the loop's subsequent frames from running.  The second
component is the exception, if any, escaping dispatch to the caller; under
the spec's isolation requirement it is provably always `none` (only the act
of cancelling, modelled separately, escapes). -/
def runHandlers (env : HandlerEnv) (e : GraphQLSubscriptionEvent) :
    List Nat → List Effect × Option String
  | [] => ([], none)
  | h :: rest =>
    match env h e with
    | Except.ok _ =>
      (Effect.run h e :: (runHandlers env e rest).1, (runHandlers env e rest).2)
    | Except.error msg =>
      (Effect.run h e :: Effect.report h msg :: (runHandlers env e rest).1,
       (runHandlers env e rest).2)

/-- Modelled from the spec: `CallbackRegistry.handle_event` awaits all
handlers registered for the given kind, in registration order; a kind with no
registered handlers is a no-op, and dispatch of an unrecognized kind
(`none`) matches no handler.  Handler failures are isolated inside the
dispatch (spec section 7) and never escape to the caller. -/
def CallbackRegistry.handle_event (r : CallbackRegistry) (env : HandlerEnv)
    (t : Option GraphQLSubscriptionEventType) (e : GraphQLSubscriptionEvent) :
    List Effect × Option String :=
  match t with
  | none => ([], none)
  | some t => runHandlers env e ((r.callbacks.filter (fun p => p.1 == t)).map (fun p => p.2))

/-- An `asyncio.Task` handle: an identity plus the `done()`/`cancelled()`
flags queried by the source. -/
structure AsyncioTask where
  ident : Nat
  done : Bool
  cancelled : Bool
deriving DecidableEq, Repr

/-- `GraphQLSubscription` (subscription.py lines 61-72): generated id, the
owned request, the callback registry, the stop event types (defaulting to
`default_stop_event_types`) and the task handle slot. -/
structure GraphQLSubscription where
  id : String
  request : GraphQLRequest
  callbacks : CallbackRegistry
  stop_event_types : List GraphQLSubscriptionEventType
  task : Option AsyncioTask

/-- Default of the `stop_event_types` field (lines 65-71). -/
def default_stop_event_types : List GraphQLSubscriptionEventType :=
  [GraphQLSubscriptionEventType.ERROR,
   GraphQLSubscriptionEventType.CONNECTION_ERROR,
   GraphQLSubscriptionEventType.COMPLETE]

/-- The `is_running` property (lines 74-78): a task is present, not done and
not cancelled. -/
def GraphQLSubscription.is_running (s : GraphQLSubscription) : Bool :=
  match s.task with
  | some t => !t.done && !t.cancelled
  | none => false

/-- The `is_complete` property (lines 80-82): a task is present and done or
cancelled. -/
def GraphQLSubscription.is_complete (s : GraphQLSubscription) : Bool :=
  match s.task with
  | some t => t.done || t.cancelled
  | none => false

/-- The payload expression of `connection_init_request` (line 87):
`{"headers": {**self.request.headers}}`, a copy of the request headers. -/
def GraphQLSubscription.init_payload (s : GraphQLSubscription) : JSON :=
  JSON.obj [("headers",
    JSON.obj (s.request.headers.map (fun kv => (kv.1, JSON.str kv.2))))]

/-- `connection_init_request` (lines 84-88): the outbound `connection_init`
frame, whose payload holds a copy of the request headers. -/
def GraphQLSubscription.connection_init_request (s : GraphQLSubscription) : JSON :=
  JSON.obj [("type", JSON.str "connection_init"), ("payload", s.init_payload)]

/-- `connection_start_request` (lines 90-95): the outbound `start` frame with
the subscription id and the full request payload. -/
def GraphQLSubscription.connection_start_request (s : GraphQLSubscription) : JSON :=
  JSON.obj [("id", JSON.str s.id), ("type", JSON.str "start"),
            ("payload", s.request.payload)]

/-- `connection_stop_request` (lines 97-98): the outbound `stop` frame with
the subscription id. -/
def GraphQLSubscription.connection_stop_request (s : GraphQLSubscription) : JSON :=
  JSON.obj [("id", JSON.str s.id), ("type", JSON.str "stop")]

/-- `is_stop_event` (lines 100-101): membership of the event's type in
`stop_event_types` (`None`, not being a member of a list of enum members, is
never a stop event). -/
def GraphQLSubscription.is_stop_event (s : GraphQLSubscription)
    (e : GraphQLSubscriptionEvent) : Bool :=
  match e.type with
  | some t => s.stop_event_types.contains t
  | none => false

/-- `handle` (lines 103-105): dispatch the event to the callback registry
when the frame id is absent or equals (as a Python value) the subscription's
own id string; otherwise do nothing. -/
def GraphQLSubscription.handle (s : GraphQLSubscription) (env : HandlerEnv)
    (e : GraphQLSubscriptionEvent) : List Effect × Option String :=
  match e.id with
  | none => s.callbacks.handle_event env e.type e
  | some (JSON.str v) =>
    if v = s.id then s.callbacks.handle_event env e.type e
    else ([], none)
  | some _ => ([], none)

/-- The `aiohttp.WSMsgType` values the read loop distinguishes: `TEXT`,
`ERROR`, and everything else (`OTHER`). -/
inductive WSMsgType where
  | TEXT
  | ERROR
  | OTHER
deriving DecidableEq, Repr

/-- One inbound websocket message: its aiohttp message type and, for text
messages, the decoded json frame (`msg.json()`). -/
structure WSMessage where
  mtype : WSMsgType
  json : JSON

/-- The event built from an inbound text frame (lines 127-129):
`GraphQLSubscriptionEvent(subscription_id=self.id, request=self.request,
json=msg.json())`. -/
def GraphQLSubscription.inbound_event (s : GraphQLSubscription)
    (m : WSMessage) : GraphQLSubscriptionEvent :=
  { request := s.request, json := m.json, subscription_id := some s.id }

/-- How the read loop ended: normally (connection closed, `WSMsgType.ERROR`
message, or a stop event observed after its dispatch), or by an exception
propagating out of a dispatched handler. -/
inductive LoopExit where
  | finished
  | excp (msg : String)
deriving DecidableEq, Repr

/-- The `async for` read loop of `_create_websocket_session`
(lines 120-133): non-text messages are skipped, a `WSMsgType.ERROR` message
breaks the loop, each text frame is classified and routed through `handle`,
and a stop event breaks the loop after its dispatch.  The loop body itself
guards nothing (the surrounding `try` only catches `CancelledError` and
`KeyboardInterrupt`), so anything escaping `handle` would end the loop
exceptionally (`LoopExit.excp`); under the spec-modelled registry, which
isolates handler failures inside dispatch, that exit is provably never
taken. -/
def session_read_loop (s : GraphQLSubscription) (env : HandlerEnv) :
    List WSMessage → List Effect × LoopExit
  | [] => ([], LoopExit.finished)
  | m :: rest =>
    if m.mtype ≠ WSMsgType.TEXT then
      if m.mtype = WSMsgType.ERROR then ([], LoopExit.finished)
      else session_read_loop s env rest
    else
      let e := s.inbound_event m
      match s.handle env e with
      | (acts, some msg) => (acts, LoopExit.excp msg)
      | (acts, none) =>
        if s.is_stop_event e then (acts, LoopExit.finished)
        else
          (acts ++ (session_read_loop s env rest).1, (session_read_loop s env rest).2)

/-- The `except (asyncio.CancelledError, KeyboardInterrupt)` handler of
`_create_websocket_session` (lines 134-135): its body is the single
statement `await ws.send_json(data=self.connection_stop_request())`, with no
further exception handling around the send. -/
def cancellation_handler (s : GraphQLSubscription)
    (send : JSON → Except String Unit) : Except String Unit :=
  send s.connection_stop_request

/-- Observable task-lifecycle effects of `subscribe`/`unsubscribe`. -/
inductive TaskEffect where
  | cancel (ident : Nat)
  | create (ident : Nat)
deriving DecidableEq, Repr

/-- `unsubscribe` (lines 165-174): cancel the task when running (asyncio's
`Task.cancel` does not raise `CancelledError`; the `try/except` around it is
inert), then unconditionally clear the task slot. -/
def GraphQLSubscription.unsubscribe (s : GraphQLSubscription) :
    GraphQLSubscription × List TaskEffect :=
  if s.is_running then
    ({ s with task := none }, (s.task.map (fun t => TaskEffect.cancel t.ident)).toList)
  else
    ({ s with task := none }, [])

/-- `subscribe` (lines 137-163), for a caller-provided session: return
immediately when already running and not forced; otherwise unsubscribe first
and store a freshly created task (`fresh` names the task
`asyncio.create_task` would return). -/
def GraphQLSubscription.subscribe (s : GraphQLSubscription) (force : Bool)
    (fresh : AsyncioTask) : GraphQLSubscription × List TaskEffect :=
  if s.is_running && !force then (s, [])
  else
    let (s1, acts) := s.unsubscribe
    ({ s1 with task := some fresh }, acts ++ [TaskEffect.create fresh.ident])

/-! Concrete fixtures used by the witness and counterexample theorems. -/

/-- A concrete request. -/
def sampleRequest : GraphQLRequest :=
  { query := "subscription { messages }",
    variableValues := [("limit", JSON.num 10)],
    headers := [("Authorization", "Bearer abc")] }

/-- A handler environment in which every handler completes normally. -/
def emptyEnv : HandlerEnv := fun _ _ => Except.ok ()

/-- A handler environment in which every handler raises `"boom"`. -/
def raisingEnv : HandlerEnv := fun _ _ => Except.error "boom"

/-- A concrete subscription with id `sub-1`, no registered callbacks, the
default stop event types and no task. -/
def sampleSubscription : GraphQLSubscription :=
  { id := "sub-1", request := sampleRequest, callbacks := ⟨[]⟩,
    stop_event_types := default_stop_event_types, task := none }

/-- A frame of type `data`, carrying a payload and no frame-level id. -/
def dataEvent : GraphQLSubscriptionEvent :=
  { request := sampleRequest,
    json := JSON.obj [("type", JSON.str "data"),
                      ("payload", JSON.obj [("data", JSON.num 1)])],
    subscription_id := some "sub-1" }

/-- A frame of type `data` addressed to a different subscription id. -/
def foreignEvent : GraphQLSubscriptionEvent :=
  { request := sampleRequest,
    json := JSON.obj [("id", JSON.str "other"), ("type", JSON.str "data"),
                      ("payload", JSON.obj [("data", JSON.num 1)])],
    subscription_id := some "sub-1" }

/-- A frame of type `data` with no payload field at all. -/
def dataEventNoPayload : GraphQLSubscriptionEvent :=
  { request := sampleRequest,
    json := JSON.obj [("type", JSON.str "data")],
    subscription_id := some "sub-1" }

/-- A frame of type `data` whose payload field holds JSON `null`. -/
def dataEventNullPayload : GraphQLSubscriptionEvent :=
  { request := sampleRequest,
    json := JSON.obj [("type", JSON.str "data"), ("payload", JSON.null)],
    subscription_id := some "sub-1" }

/-- A keep-alive frame carrying a payload. -/
def kaEvent : GraphQLSubscriptionEvent :=
  { request := sampleRequest,
    json := JSON.obj [("type", JSON.str "ka"), ("payload", JSON.str "hb")],
    subscription_id := some "sub-1" }

/-- A frame bearing an unrecognized type string and a matching id. -/
def bogusEvent : GraphQLSubscriptionEvent :=
  { request := sampleRequest,
    json := JSON.obj [("type", JSON.str "bogus"), ("id", JSON.str "sub-1")],
    subscription_id := some "sub-1" }

/-- An inbound text message carrying a `complete` frame for `sub-1`. -/
def completeMsg : WSMessage :=
  ⟨WSMsgType.TEXT, JSON.obj [("type", JSON.str "complete"), ("id", JSON.str "sub-1")]⟩

/-- An inbound text message carrying a keep-alive frame. -/
def kaMsg : WSMessage :=
  ⟨WSMsgType.TEXT, JSON.obj [("type", JSON.str "ka")]⟩

/-- An inbound text message carrying a `data` frame without frame id. -/
def dataMsg : WSMessage :=
  ⟨WSMsgType.TEXT, JSON.obj [("type", JSON.str "data"),
                             ("payload", JSON.obj [("data", JSON.num 1)])]⟩

/-- A live (not done, not cancelled) task. -/
def runningTask : AsyncioTask := ⟨1, false, false⟩

/-- A task that has already completed. -/
def doneTask : AsyncioTask := ⟨5, true, false⟩

/-- `sampleSubscription` with a live task installed. -/
def runningSubscription : GraphQLSubscription :=
  { sampleSubscription with task := some runningTask }

/-- `sampleSubscription` with an already-completed task still stored. -/
def completedSubscription : GraphQLSubscription :=
  { sampleSubscription with task := some doneTask }

/-- A registry with a single handler (id 0) registered for `data` events. -/
def raisingRegistry : CallbackRegistry :=
  ⟨[(GraphQLSubscriptionEventType.DATA, 0)]⟩

/-- `sampleSubscription` with the `data` handler registry installed. -/
def handlerSubscription : GraphQLSubscription :=
  { sampleSubscription with callbacks := raisingRegistry }

/-! Helper lemmas. -/

theorem GraphQLSubscriptionEventType.mem_all (t : GraphQLSubscriptionEventType) :
    t ∈ GraphQLSubscriptionEventType.all := by
  cases t <;> simp [GraphQLSubscriptionEventType.all]

theorem GraphQLSubscriptionEventType.ofValue_eq_some {v : String}
    {t : GraphQLSubscriptionEventType}
    (h : GraphQLSubscriptionEventType.ofValue v = some t) : v = t.value := by
  have hp := List.find?_some h
  exact (eq_of_beq hp).symm

theorem runHandlers_no_send (env : HandlerEnv) (e : GraphQLSubscriptionEvent)
    (hs : List Nat) : ∀ f, Effect.send f ∉ (runHandlers env e hs).1 := by
  induction hs with
  | nil => intro f hf; simp [runHandlers] at hf
  | cons h t ih =>
    intro f hf
    rw [runHandlers] at hf
    cases henv : env h e with
    | ok u =>
      rw [henv] at hf
      simp only [List.mem_cons] at hf
      rcases hf with heq | hf
      · exact Effect.noConfusion heq
      · exact ih f hf
    | error msg =>
      rw [henv] at hf
      simp only [List.mem_cons] at hf
      rcases hf with heq | heq | hf
      · exact Effect.noConfusion heq
      · exact Effect.noConfusion heq
      · exact ih f hf

theorem runHandlers_never_raises (env : HandlerEnv) (e : GraphQLSubscriptionEvent)
    (hs : List Nat) : (runHandlers env e hs).2 = none := by
  induction hs with
  | nil => rfl
  | cons h t ih =>
    rw [runHandlers]
    cases henv : env h e with
    | ok u => simpa using ih
    | error msg => simpa using ih

theorem handle_event_no_send (r : CallbackRegistry) (env : HandlerEnv)
    (t : Option GraphQLSubscriptionEventType) (e : GraphQLSubscriptionEvent) :
    ∀ f, Effect.send f ∉ (r.handle_event env t e).1 := by
  cases t with
  | none => intro f hf; simp [CallbackRegistry.handle_event] at hf
  | some t => exact runHandlers_no_send env e _

theorem handle_event_never_raises (r : CallbackRegistry) (env : HandlerEnv)
    (t : Option GraphQLSubscriptionEventType) (e : GraphQLSubscriptionEvent) :
    (r.handle_event env t e).2 = none := by
  cases t with
  | none => rfl
  | some t => exact runHandlers_never_raises env e _

theorem handle_no_send (s : GraphQLSubscription) (env : HandlerEnv)
    (e : GraphQLSubscriptionEvent) :
    ∀ f, Effect.send f ∉ (s.handle env e).1 := by
  unfold GraphQLSubscription.handle
  rcases hid : e.id with _ | j
  · exact handle_event_no_send s.callbacks env e.type e
  · cases j with
    | str v =>
      by_cases hv : v = s.id
      · simpa [hv] using handle_event_no_send s.callbacks env e.type e
      · intro f hf; simp [hv] at hf
    | null => intro f hf; simp at hf
    | bool b => intro f hf; simp at hf
    | num n => intro f hf; simp at hf
    | arr xs => intro f hf; simp at hf
    | obj fs => intro f hf; simp at hf

theorem handle_never_raises (s : GraphQLSubscription) (env : HandlerEnv)
    (e : GraphQLSubscriptionEvent) : (s.handle env e).2 = none := by
  unfold GraphQLSubscription.handle
  rcases hid : e.id with _ | j
  · exact handle_event_never_raises s.callbacks env e.type e
  · cases j with
    | str v =>
      by_cases hv : v = s.id
      · simpa [hv] using handle_event_never_raises s.callbacks env e.type e
      · simp [hv]
    | null => rfl
    | bool b => rfl
    | num n => rfl
    | arr xs => rfl
    | obj fs => rfl

/-- C1: `GraphQLSubscription.handle` dispatches an inbound event to the
callback registry if and only if the frame-level id is absent or equals the
subscription's own id; an event bearing any other id is dropped with zero
side effects (no handler runs, nothing is sent, nothing changes). -/
theorem handle_dispatches_iff_id_matches (s : GraphQLSubscription)
    (env : HandlerEnv) (e : GraphQLSubscriptionEvent) :
    ((e.id = none ∨ e.id = some (JSON.str s.id)) →
      s.handle env e = s.callbacks.handle_event env e.type e)
    ∧ (e.id ≠ none ∧ e.id ≠ some (JSON.str s.id) →
      s.handle env e = ([], none)) := by
  constructor
  · rintro (h | h) <;> simp [GraphQLSubscription.handle, h]
  · rintro ⟨h1, h2⟩
    rcases hid : e.id with _ | j
    · exact absurd hid h1
    · cases j with
      | str v =>
        have hv : v ≠ s.id := by
          intro hveq
          exact h2 (by rw [hid, hveq])
        simp [GraphQLSubscription.handle, hid, hv]
      | null => simp [GraphQLSubscription.handle, hid]
      | bool b => simp [GraphQLSubscription.handle, hid]
      | num n => simp [GraphQLSubscription.handle, hid]
      | arr xs => simp [GraphQLSubscription.handle, hid]
      | obj fs => simp [GraphQLSubscription.handle, hid]

/-- C1 witness: a frame without id is dispatched; a frame addressed to a
different subscription id is dropped with no effects. -/
theorem handle_dispatches_iff_id_matches_witness :
    sampleSubscription.handle emptyEnv dataEvent
      = sampleSubscription.callbacks.handle_event emptyEnv dataEvent.type dataEvent
    ∧ sampleSubscription.handle emptyEnv foreignEvent = ([], none) := by
  constructor
  · exact (handle_dispatches_iff_id_matches sampleSubscription emptyEnv dataEvent).1
      (Or.inl rfl)
  · refine (handle_dispatches_iff_id_matches sampleSubscription emptyEnv foreignEvent).2
      ⟨?_, ?_⟩
    · rw [show foreignEvent.id = some (JSON.str "other") from rfl]
      simp
    · rw [show foreignEvent.id = some (JSON.str "other") from rfl]
      simp [sampleSubscription]

/-- C2 counterexample: a `DATA` event whose frame carries no payload field
has `payload = none` — not a `GraphQLResponse` wrapping the request, as the
claim asserts for every `DATA`/`ERROR` event. -/
theorem data_event_without_payload_yields_none :
    dataEventNoPayload.type = some GraphQLSubscriptionEventType.DATA
    ∧ dataEventNoPayload.payload = none
    ∧ ∀ r : GraphQLResponse,
        dataEventNoPayload.payload ≠ some (GraphQLSubscriptionPayload.response r) := by
  refine ⟨rfl, rfl, ?_⟩
  intro r h
  rw [show dataEventNoPayload.payload = none from rfl] at h
  exact Option.noConfusion h

/-- C2 (amended): when the frame carries a (non-null) payload, `DATA` and
`ERROR` events wrap it in a `GraphQLResponse` together with the original
request, and events of any other kind return it raw; events of other kinds
never yield a `GraphQLResponse`. -/
theorem payload_wrapping (e : GraphQLSubscriptionEvent) :
    (∀ p, JSON.get e.json "payload" = some p →
      ((e.type = some GraphQLSubscriptionEventType.DATA ∨
          e.type = some GraphQLSubscriptionEventType.ERROR) →
        e.payload = some (GraphQLSubscriptionPayload.response ⟨e.request, p⟩))
      ∧ (¬(e.type = some GraphQLSubscriptionEventType.DATA ∨
            e.type = some GraphQLSubscriptionEventType.ERROR) →
        e.payload = some (GraphQLSubscriptionPayload.raw p)))
    ∧ (¬(e.type = some GraphQLSubscriptionEventType.DATA ∨
          e.type = some GraphQLSubscriptionEventType.ERROR) →
      ∀ r : GraphQLResponse,
        e.payload ≠ some (GraphQLSubscriptionPayload.response r)) := by
  constructor
  · intro p hp
    constructor
    · intro ht
      simp [GraphQLSubscriptionEvent.payload, hp, ht]
    · intro ht
      simp [GraphQLSubscriptionEvent.payload, hp, ht]
  · intro ht r h
    rcases hq : JSON.get e.json "payload" with _ | p
    · simp [GraphQLSubscriptionEvent.payload, hq] at h
    · simp [GraphQLSubscriptionEvent.payload, hq, ht] at h

/-- C2 witness: a `DATA` event with payload wraps it into a response; a
keep-alive event returns its payload raw and never a response. -/
theorem payload_wrapping_witness :
    dataEvent.payload = some (GraphQLSubscriptionPayload.response
      ⟨dataEvent.request, JSON.obj [("data", JSON.num 1)]⟩)
    ∧ kaEvent.payload = some (GraphQLSubscriptionPayload.raw (JSON.str "hb"))
    ∧ ∀ r : GraphQLResponse,
        kaEvent.payload ≠ some (GraphQLSubscriptionPayload.response r) := by
  have hka : ¬(kaEvent.type = some GraphQLSubscriptionEventType.DATA ∨
      kaEvent.type = some GraphQLSubscriptionEventType.ERROR) := by decide
  refine ⟨?_, ?_, ?_⟩
  · exact ((payload_wrapping dataEvent).1 _ rfl).1 (Or.inl rfl)
  · exact ((payload_wrapping kaEvent).1 _ rfl).2 hka
  · exact (payload_wrapping kaEvent).2 hka

/-- C3: a frame whose type field is not one of the ten recognized event-kind
strings (including an absent or non-string type) classifies without error to
the unrecognized kind (`none`), and dispatching such an event through the
registry — or through `handle` — is a no-op. -/
theorem unrecognized_type_is_inert (e : GraphQLSubscriptionEvent)
    (h : ∀ t : GraphQLSubscriptionEventType,
      JSON.get e.json "type" ≠ some (JSON.str t.value)) :
    e.type = none
    ∧ (∀ (r : CallbackRegistry) (env : HandlerEnv),
        r.handle_event env e.type e = ([], none))
    ∧ (∀ (s : GraphQLSubscription) (env : HandlerEnv),
        s.handle env e = ([], none)) := by
  have htype : e.type = none := by
    unfold GraphQLSubscriptionEvent.type
    rcases hg : JSON.get e.json "type" with _ | j
    · rfl
    · cases j with
      | str v =>
        rcases hov : GraphQLSubscriptionEventType.ofValue v with _ | t
        · exact hov
        · exact absurd
            (by rw [hg, GraphQLSubscriptionEventType.ofValue_eq_some hov])
            (h t)
      | null => rfl
      | bool b => rfl
      | num n => rfl
      | arr xs => rfl
      | obj fs => rfl
  have hreg : ∀ (r : CallbackRegistry) (env : HandlerEnv),
      r.handle_event env e.type e = ([], none) := by
    intro r env
    rw [htype]
    rfl
  refine ⟨htype, hreg, ?_⟩
  intro s env
  rcases hid : e.id with _ | j
  · simpa [GraphQLSubscription.handle, hid] using hreg s.callbacks env
  · cases j with
    | str v =>
      by_cases hv : v = s.id
      · simpa [GraphQLSubscription.handle, hid, hv] using hreg s.callbacks env
      · simp [GraphQLSubscription.handle, hid, hv]
    | null => simp [GraphQLSubscription.handle, hid]
    | bool b => simp [GraphQLSubscription.handle, hid]
    | num n => simp [GraphQLSubscription.handle, hid]
    | arr xs => simp [GraphQLSubscription.handle, hid]
    | obj fs => simp [GraphQLSubscription.handle, hid]

/-- C3 witness: a frame typed `"bogus"` (addressed to the subscription)
classifies to `none` and its dispatch is a no-op. -/
theorem unrecognized_type_is_inert_witness :
    bogusEvent.type = none
    ∧ sampleSubscription.callbacks.handle_event emptyEnv bogusEvent.type bogusEvent
        = ([], none)
    ∧ sampleSubscription.handle emptyEnv bogusEvent = ([], none) := by
  have h : ∀ t : GraphQLSubscriptionEventType,
      JSON.get bogusEvent.json "type" ≠ some (JSON.str t.value) := by
    intro t
    rw [show JSON.get bogusEvent.json "type" = some (JSON.str "bogus") from rfl]
    cases t <;> simp [GraphQLSubscriptionEventType.value]
  exact ⟨(unrecognized_type_is_inert bogusEvent h).1,
    (unrecognized_type_is_inert bogusEvent h).2.1 sampleSubscription.callbacks emptyEnv,
    (unrecognized_type_is_inert bogusEvent h).2.2 sampleSubscription emptyEnv⟩

/-- C4: when the read loop observes a text frame whose event kind is in the
subscription's stop event types (and whose dispatch raises no exception), the
event is delivered through `handle` first, the loop then exits normally
without processing the remaining messages, and no frame at all — in
particular no stop frame — is sent on that path. -/
theorem stop_event_ends_loop (s : GraphQLSubscription) (env : HandlerEnv)
    (m : WSMessage) (rest : List WSMessage)
    (htext : m.mtype = WSMsgType.TEXT)
    (hstop : s.is_stop_event (s.inbound_event m) = true)
    (hok : (s.handle env (s.inbound_event m)).2 = none) :
    session_read_loop s env (m :: rest)
      = ((s.handle env (s.inbound_event m)).1, LoopExit.finished)
    ∧ ∀ f : JSON, Effect.send f ∉ (s.handle env (s.inbound_event m)).1 := by
  constructor
  · rcases hh : s.handle env (s.inbound_event m) with ⟨acts, exc⟩
    have hexc : exc = none := by
      rw [hh] at hok
      exact hok
    subst hexc
    simp [session_read_loop, htext, hh, hstop]
  · intro f hf
    exact handle_no_send s env (s.inbound_event m) f hf

/-- C4 witness: a `complete` frame addressed to the subscription is handled
and ends the loop without the trailing keep-alive being processed. -/
theorem stop_event_ends_loop_witness :
    session_read_loop sampleSubscription emptyEnv [completeMsg, kaMsg]
      = ((sampleSubscription.handle emptyEnv
            (sampleSubscription.inbound_event completeMsg)).1,
         LoopExit.finished)
    ∧ Effect.send (sampleSubscription.connection_stop_request)
        ∉ (sampleSubscription.handle emptyEnv
            (sampleSubscription.inbound_event completeMsg)).1 := by
  have h := stop_event_ends_loop sampleSubscription emptyEnv completeMsg [kaMsg]
    rfl rfl rfl
  exact ⟨h.1, h.2 sampleSubscription.connection_stop_request⟩

/-- C5 counterexample: when the websocket send fails (for instance because
the channel is already closed), the failure escapes the cancellation handler
— it is not caught and discarded as the claim asserts. -/
theorem stop_send_failure_escapes :
    cancellation_handler sampleSubscription (fun _ => Except.error "connection closed")
      = Except.error "connection closed"
    ∧ cancellation_handler sampleSubscription (fun _ => Except.error "connection closed")
      ≠ Except.ok () := by
  refine ⟨rfl, ?_⟩
  intro h
  rw [show cancellation_handler sampleSubscription
      (fun _ => Except.error "connection closed")
      = Except.error "connection closed" from rfl] at h
  exact Except.noConfusion h

/-- C5 (amended): on cancellation the handler performs exactly the single
send of the stop frame (subscription id plus stop type) and returns that
send's outcome unchanged — a failing send propagates instead of being
caught. -/
theorem cancellation_sends_single_stop (s : GraphQLSubscription)
    (send : JSON → Except String Unit) :
    cancellation_handler s send
      = send (JSON.obj [("id", JSON.str s.id), ("type", JSON.str "stop")]) := rfl

/-- C6: calling `subscribe` without `force` while the task is running is a
no-op — the state (in particular the stored task handle) is unchanged and no
task is cancelled or created. -/
theorem subscribe_while_running_is_noop (s : GraphQLSubscription)
    (fresh : AsyncioTask) (h : s.is_running = true) :
    s.subscribe false fresh = (s, []) := by
  simp [GraphQLSubscription.subscribe, h]

/-- C6 witness: re-subscribing a running subscription changes nothing. -/
theorem subscribe_while_running_is_noop_witness :
    runningSubscription.subscribe false ⟨2, false, false⟩ = (runningSubscription, []) :=
  subscribe_while_running_is_noop runningSubscription ⟨2, false, false⟩ rfl

/-- C7 counterexample: on a subscription whose task is present but already
done (hence not running), `unsubscribe` cancels nothing — but it does change
the state: the stored task handle is cleared, not left unchanged as the
claim asserts. -/
theorem unsubscribe_clears_completed_task :
    completedSubscription.is_running = false
    ∧ (completedSubscription.unsubscribe).2 = []
    ∧ (completedSubscription.unsubscribe).1.task = none
    ∧ completedSubscription.task = some doneTask
    ∧ (completedSubscription.unsubscribe).1 ≠ completedSubscription := by
  refine ⟨rfl, rfl, rfl, rfl, ?_⟩
  intro h
  have htask := congrArg GraphQLSubscription.task h
  rw [show (completedSubscription.unsubscribe).1.task = none from rfl] at htask
  rw [show completedSubscription.task = some doneTask from rfl] at htask
  exact Option.noConfusion htask

/-- C7 (amended): `unsubscribe` on a non-running subscription cancels
nothing, and changes nothing except the task slot, which it clears
unconditionally. -/
theorem unsubscribe_not_running (s : GraphQLSubscription)
    (h : s.is_running = false) :
    s.unsubscribe = ({ s with task := none }, []) := by
  simp [GraphQLSubscription.unsubscribe, h]

/-- C7 witness: unsubscribing the completed-task subscription cancels
nothing and only clears the task slot. -/
theorem unsubscribe_not_running_witness :
    completedSubscription.unsubscribe
      = ({ completedSubscription with task := none }, []) :=
  unsubscribe_not_running completedSubscription rfl

/-- C8: the outbound `connection_init` frame carries only the request
headers in its payload (no query, no variables), while the outbound `start`
frame carries the subscription id together with the full request payload
(query and variables). -/
theorem init_and_start_frame_contents (s : GraphQLSubscription) :
    JSON.get s.connection_init_request "type" = some (JSON.str "connection_init")
    ∧ JSON.get s.connection_init_request "payload" = some s.init_payload
    ∧ JSON.get s.init_payload "headers"
        = some (JSON.obj (s.request.headers.map (fun kv => (kv.1, JSON.str kv.2))))
    ∧ JSON.get s.init_payload "query" = none
    ∧ JSON.get s.init_payload "variables" = none
    ∧ JSON.get s.connection_start_request "id" = some (JSON.str s.id)
    ∧ JSON.get s.connection_start_request "type" = some (JSON.str "start")
    ∧ JSON.get s.connection_start_request "payload" = some s.request.payload
    ∧ JSON.get s.request.payload "query" = some (JSON.str s.request.query)
    ∧ JSON.get s.request.payload "variables" = some (JSON.obj s.request.variableValues) :=
  ⟨rfl, rfl, rfl, rfl, rfl, rfl, rfl, rfl, rfl, rfl⟩

/-- C9: an exception raised from inside a registered handler (other than
the act of cancelling, modelled separately) is isolated: it never escapes
`handle`, the read loop never terminates exceptionally, and after a
dispatched (non-stop) frame the loop continues processing the subsequent
frames exactly as it otherwise would. -/
theorem handler_exception_isolated (s : GraphQLSubscription) (env : HandlerEnv) :
    (∀ e : GraphQLSubscriptionEvent, (s.handle env e).2 = none)
    ∧ (∀ msgs : List WSMessage,
        (session_read_loop s env msgs).2 = LoopExit.finished)
    ∧ ∀ (m : WSMessage) (rest : List WSMessage),
        m.mtype = WSMsgType.TEXT →
        s.is_stop_event (s.inbound_event m) = false →
        session_read_loop s env (m :: rest)
          = ((s.handle env (s.inbound_event m)).1
              ++ (session_read_loop s env rest).1,
             (session_read_loop s env rest).2) := by
  refine ⟨handle_never_raises s env, ?_, ?_⟩
  · intro msgs
    induction msgs with
    | nil => rfl
    | cons m rest ih =>
      rcases hm : s.handle env (s.inbound_event m) with ⟨acts, exc⟩
      have hexc : exc = none := by
        have hn := handle_never_raises s env (s.inbound_event m)
        rw [hm] at hn
        exact hn
      subst hexc
      by_cases ht : m.mtype = WSMsgType.TEXT
      · by_cases hst : s.is_stop_event (s.inbound_event m)
        · simp [session_read_loop, ht, hm, hst]
        · simp [session_read_loop, ht, hm, hst, ih]
      · by_cases herr : m.mtype = WSMsgType.ERROR
        · simp [session_read_loop, ht, herr]
        · simp [session_read_loop, ht, herr, ih]
  · intro m rest htext hstop
    rcases hm : s.handle env (s.inbound_event m) with ⟨acts, exc⟩
    have hexc : exc = none := by
      have hn := handle_never_raises s env (s.inbound_event m)
      rw [hm] at hn
      exact hn
    subst hexc
    simp [session_read_loop, htext, hm, hstop]

/-- C9 witness: a registered handler that raises on a `data` frame has its
failure reported inside dispatch (nothing escapes), and the loop goes on to
process the following keep-alive frame. -/
theorem handler_exception_isolated_witness :
    handlerSubscription.handle raisingEnv (handlerSubscription.inbound_event dataMsg)
      = ([Effect.run 0 (handlerSubscription.inbound_event dataMsg),
          Effect.report 0 "boom"], none)
    ∧ (handlerSubscription.handle raisingEnv
        (handlerSubscription.inbound_event dataMsg)).2 = none
    ∧ session_read_loop handlerSubscription raisingEnv [dataMsg, kaMsg]
      = ((handlerSubscription.handle raisingEnv
            (handlerSubscription.inbound_event dataMsg)).1
          ++ (session_read_loop handlerSubscription raisingEnv [kaMsg]).1,
         (session_read_loop handlerSubscription raisingEnv [kaMsg]).2) := by
  have h := handler_exception_isolated handlerSubscription raisingEnv
  exact ⟨rfl, h.1 (handlerSubscription.inbound_event dataMsg),
         h.2.2 dataMsg [kaMsg] rfl rfl⟩

/-- C10: an event whose frame has no payload field, or whose payload field
is JSON null, has payload accessor `None` — whatever its kind. -/
theorem payload_none_when_payload_missing (e : GraphQLSubscriptionEvent)
    (h : JSON.get e.json "payload" = none) : e.payload = none := by
  simp [GraphQLSubscriptionEvent.payload, h]

/-- C10 witness: a `DATA` event whose payload field holds JSON null yields
`None`, not a response wrapping an empty body. -/
theorem payload_none_when_payload_missing_witness :
    dataEventNullPayload.payload = none :=
  payload_none_when_payload_missing dataEventNullPayload rfl
